import Mathlib

/-!
Verification of the Change Management System core: the ChangeRequest
lifecycle state machine (`app/models/change_request.py`), the access
guards (`app/models/user.py`), and the SLA deadline sweep
(`app/services/sla_monitor.py`).

Modelling conventions:
* UTC timestamps are integers (`Int`) counting whole seconds since the
  epoch; `datetime.now(timezone.utc)` is an explicit `now : Int` argument.
* ORM rows become records; `None`-able columns become `Option` fields.
* The in-memory mutation style of the Python methods becomes explicit
  state passing: each method takes and returns a `ChangeRequest`.
* Exceptions raised by collaborators (the email gateway) are modelled
  with `Except`; a fault model `raises : Nat -> Bool` says for which CR
  ids the notification dispatch raises.
-/

namespace CMS

/-- Status enumeration of `CRStatus` in `app/models/change_request.py`. -/
inductive CRStatus where
  | draft
  | submitted
  | pending_approval
  | approved
  | rejected
  | in_progress
  | implemented
  | closed
  | rolled_back
deriving DecidableEq, Repr

/-- A project row: the fields of `Project` that the access guards read. -/
structure Project where
  id : Nat
  created_by_id : Nat
deriving DecidableEq, Repr

/-- A role row: its name and the names of its permissions.
`Role.has_permission` is `any(p.name == permission_name for p in self.permissions)`. -/
structure Role where
  name : String
  permissions : List String
deriving DecidableEq, Repr

/-- A project membership row, as read by `User.has_project_access`. -/
structure ProjectMembership where
  project_id : Nat
  is_active : Bool
deriving DecidableEq, Repr

/-- A user row: the fields of `User` that the guards in this development read. -/
structure User where
  id : Nat
  role : Option Role
  project_memberships : List ProjectMembership
deriving DecidableEq, Repr

/-- The `ChangeRequest` row: the columns read or written by the lifecycle
methods and the SLA sweep. -/
structure ChangeRequest where
  id : Nat
  project : Project
  requester_id : Nat
  status : CRStatus
  approver_id : Option Nat := none
  implementer_id : Option Nat := none
  submitted_at : Option Int := none
  approved_date : Option Int := none
  implementation_date : Option Int := none
  closed_date : Option Int := none
  implementation_deadline : Option Int := none
  sla_deadline : Option Int := none
  is_sla_breached : Bool := false
  sla_warning_sent : Bool := false
  approval_comments : Option String := none
  rejection_reason : Option String := none
  rollback_reason : Option String := none
  rolled_back_at : Option Int := none
  rolled_back_by_id : Option Nat := none
  closed_by_id : Option Nat := none
  closure_comments : Option String := none
  closure_notes : Option String := none
deriving DecidableEq, Repr

/-! ## Role and access guards (`app/models/user.py`, `app/models/role.py`) -/

/-- `User.has_permission`: `False` without a role, else `Role.has_permission`. -/
def has_permission (u : User) (permission_name : String) : Bool :=
  match u.role with
  | none => false
  | some r => r.permissions.contains permission_name

/-- `User.has_role`: the role exists and its name equals `role_name` exactly. -/
def has_role (u : User) (role_name : String) : Bool :=
  match u.role with
  | none => false
  | some r => r.name = role_name

/-- `User.is_admin`: `has_role` applied to the admin role name. -/
def is_admin (u : User) : Bool :=
  has_role u "admin"

/-- `User.has_project_access`: admins short-circuit to `True`, otherwise an
active membership for the project must exist. -/
def has_project_access (u : User) (p : Project) : Bool :=
  is_admin u || u.project_memberships.any (fun m => decide (m.project_id = p.id) && m.is_active)

/-- Python `str.lower()` as used on role names (`Char.toLower` per
character; the role names involved are ASCII). -/
def str_lower (s : String) : String :=
  ⟨s.data.map Char.toLower⟩

/-- The statuses an implementer may see, from `User.can_access_cr`. -/
def implementer_visible_statuses : List CRStatus :=
  [CRStatus.approved, CRStatus.in_progress, CRStatus.implemented,
   CRStatus.closed, CRStatus.rolled_back]

/-- `User.can_access_cr`: role-name dispatch (lower-cased) over the access
matrix; unknown roles and roleless users are denied. -/
def can_access_cr (u : User) (cr : ChangeRequest) : Bool :=
  let user_role_name : Option String := u.role.map (fun r => str_lower r.name)
  if user_role_name = some "admin" then
    decide (cr.project.created_by_id = u.id)
  else if has_project_access u cr.project = false then
    false
  else if user_role_name = some "requester" then
    decide (cr.requester_id = u.id)
  else if user_role_name = some "implementer" then
    decide (cr.status ∈ implementer_visible_statuses)
  else if user_role_name = some "approver" then
    true
  else
    false

/-! ## ChangeRequest lifecycle methods (`app/models/change_request.py`) -/

/-- The `non_editable_statuses` list inside `ChangeRequest.can_edit`. -/
def non_editable_statuses : List CRStatus :=
  [CRStatus.approved, CRStatus.implemented, CRStatus.closed,
   CRStatus.rejected, CRStatus.rolled_back]

/-- `ChangeRequest.can_edit`. -/
def can_edit (cr : ChangeRequest) (u : User) : Bool :=
  if cr.status ∈ non_editable_statuses then false
  else if cr.requester_id = u.id then true
  else if has_permission u "manage_system" then true
  else false

/-- `dt.replace(hour=23, minute=59, second=59)` applied to `now`, on
whole-second UTC timestamps: the last second of the same UTC day. -/
def end_of_day (now : Int) : Int :=
  now - now % 86400 + 86399

/-- `ChangeRequest.submit`: guarded on `Draft`; a no-op otherwise. -/
def submit (now : Int) (cr : ChangeRequest) : ChangeRequest :=
  if cr.status = CRStatus.draft then
    { cr with
        status := CRStatus.pending_approval
        submitted_at := some now
        sla_deadline := some (end_of_day now) }
  else cr

/-- `ChangeRequest.approve`: unconditional status overwrite. -/
def approve (now : Int) (approver_id : Nat) (comments : Option String)
    (cr : ChangeRequest) : ChangeRequest :=
  { cr with
      status := CRStatus.approved
      approver_id := some approver_id
      approved_date := some now
      approval_comments := comments }

/-- `ChangeRequest.reject`: unconditional status overwrite. -/
def reject (now : Int) (approver_id : Nat) (reason : String)
    (cr : ChangeRequest) : ChangeRequest :=
  { cr with
      status := CRStatus.rejected
      approver_id := some approver_id
      approved_date := some now
      rejection_reason := some reason }

/-- `ChangeRequest.start_implementation`: unconditional status overwrite. -/
def start_implementation (now : Int) (implementer_id : Nat)
    (cr : ChangeRequest) : ChangeRequest :=
  { cr with
      status := CRStatus.in_progress
      implementer_id := some implementer_id
      implementation_date := some now }

/-- `ChangeRequest.complete_implementation`: unconditional status overwrite. -/
def complete_implementation (cr : ChangeRequest) : ChangeRequest :=
  { cr with status := CRStatus.implemented }

/-- `ChangeRequest.close`: unconditional status overwrite. -/
def close (now : Int) (user_id : Nat) (comments : Option String)
    (notes : Option String) (cr : ChangeRequest) : ChangeRequest :=
  { cr with
      status := CRStatus.closed
      closed_date := some now
      closed_by_id := some user_id
      closure_comments := comments
      closure_notes := notes }

/-- `ChangeRequest.rollback`: unconditional status overwrite. -/
def rollback (now : Int) (user_id : Nat) (reason : String)
    (cr : ChangeRequest) : ChangeRequest :=
  { cr with
      status := CRStatus.rolled_back
      rolled_back_at := some now
      rolled_back_by_id := some user_id
      rollback_reason := some reason }

/-! ## SLA evaluator (`app/models/change_request.py`) -/

/-- `ChangeRequest.check_sla_breach`: marks the breach flag and reports
whether a new breach was detected at `now`. -/
def check_sla_breach (now : Int) (cr : ChangeRequest) : ChangeRequest × Bool :=
  match cr.implementation_deadline with
  | some d =>
    if cr.is_sla_breached = false then
      if now > d then ({ cr with is_sla_breached := true }, true)
      else (cr, false)
    else (cr, false)
  | none => (cr, false)

/-- `ChangeRequest.time_until_deadline`: `deadline - now` (in seconds),
with a naive stored deadline interpreted as UTC. -/
def time_until_deadline (now : Int) (cr : ChangeRequest) : Option Int :=
  match cr.implementation_deadline with
  | some d => some (d - now)
  | none => none

/-- `ChangeRequest.is_deadline_warning_needed`: the guard chain plus the
truthiness test `if time_left` (a timedelta is falsy only when zero) and
`time_left.total_seconds() <= 86400`. -/
def is_deadline_warning_needed (now : Int) (cr : ChangeRequest) : Bool :=
  if cr.implementation_deadline.isSome ∧ cr.sla_warning_sent = false ∧ cr.is_sla_breached = false then
    match time_until_deadline now cr with
    | some t => decide (t ≠ 0) && decide (t ≤ 86400)
    | none => false
  else false

/-! ## SLA sweep (`app/services/sla_monitor.py`) -/

/-- The two kinds of SLA email the sweep can dispatch. -/
inductive NotificationKind where
  | breach
  | warning
deriving DecidableEq, Repr

/-- One iteration of the `for cr in active_crs` loop body of
`check_sla_deadlines`, with no collaborator faults: the closed-status skip,
then `check_sla_breach`, then the `elif` warning branch with its inner
`if time_remaining` truthiness test and `0 < hours_remaining <= 24` window
(in seconds: `0 < t` and `t <= 86400`).  Returns the committed CR state and
the notifications dispatched for it. -/
def sweep_body (now : Int) (cr : ChangeRequest) : ChangeRequest × List NotificationKind :=
  if cr.status = CRStatus.closed then (cr, [])
  else
    let res := check_sla_breach now cr
    let cr1 := res.1
    if res.2 then
      if cr1.sla_warning_sent = false then
        ({ cr1 with sla_warning_sent := true }, [NotificationKind.breach])
      else (cr1, [])
    else if is_deadline_warning_needed now cr1 && cr1.sla_warning_sent = false then
      match time_until_deadline now cr1 with
      | some t =>
        if t ≠ 0 then
          if 0 < t ∧ t ≤ 86400 then
            ({ cr1 with sla_warning_sent := true }, [NotificationKind.warning])
          else (cr1, [])
        else (cr1, [])
      | none => (cr1, [])
    else (cr1, [])

/-- The same loop body under a notification-dispatch fault model:
`raises i` means `EmailService` raises while dispatching an email for the
CR with id `i`.  The raise happens before the one-shot flag is set and
before the per-CR commit, so on `Except.error` the CR row keeps its
pre-iteration state once the session is rolled back. -/
def sweep_body_exc (raises : Nat → Bool) (now : Int) (cr : ChangeRequest) :
    Except Unit (ChangeRequest × List NotificationKind) :=
  if cr.status = CRStatus.closed then Except.ok (cr, [])
  else
    let res := check_sla_breach now cr
    let cr1 := res.1
    if res.2 then
      if cr1.sla_warning_sent = false then
        if raises cr.id then Except.error ()
        else Except.ok ({ cr1 with sla_warning_sent := true }, [NotificationKind.breach])
      else Except.ok (cr1, [])
    else if is_deadline_warning_needed now cr1 && cr1.sla_warning_sent = false then
      match time_until_deadline now cr1 with
      | some t =>
        if t ≠ 0 then
          if 0 < t ∧ t ≤ 86400 then
            if raises cr.id then Except.error ()
            else Except.ok ({ cr1 with sla_warning_sent := true }, [NotificationKind.warning])
          else Except.ok (cr1, [])
        else Except.ok (cr1, [])
      | none => Except.ok (cr1, [])
    else Except.ok (cr1, [])

/-- The `for` loop of `check_sla_deadlines` over the queried list, with
per-CR commits.  An uncaught exception aborts the loop; the `Except.error`
payload records the database state at that point (prefix committed, the
failing CR rolled back, the suffix untouched) and the notifications already
dispatched. -/
def sweep_loop_exc (raises : Nat → Bool) (now : Int) :
    List ChangeRequest →
    Except (List ChangeRequest × List (Nat × NotificationKind))
           (List ChangeRequest × List (Nat × NotificationKind))
  | [] => Except.ok ([], [])
  | cr :: rest =>
    match sweep_body_exc raises now cr with
    | Except.error _ => Except.error (cr :: rest, [])
    | Except.ok (cr1, ns) =>
      match sweep_loop_exc raises now rest with
      | Except.error (rest_db, rest_ns) =>
        Except.error (cr1 :: rest_db, ns.map (fun k => (cr.id, k)) ++ rest_ns)
      | Except.ok (rest_db, rest_ns) =>
        Except.ok (cr1 :: rest_db, ns.map (fun k => (cr.id, k)) ++ rest_ns)

/-- `check_sla_deadlines`, applied to the result of the active-CR query
(status in `{approved, in_progress, implemented}` and deadline set): the
whole loop runs inside one `try`, whose `except` logs, rolls the session
back and returns normally. -/
def check_sla_deadlines (raises : Nat → Bool) (now : Int)
    (active_crs : List ChangeRequest) :
    List ChangeRequest × List (Nat × NotificationKind) :=
  match sweep_loop_exc raises now active_crs with
  | Except.ok r => r
  | Except.error r => r

/-- The fault-free collaborator: the email gateway never raises. -/
def no_fault : Nat → Bool := fun _ => false

/-- The status filter of the sweep query:
`status.in_([APPROVED, IN_PROGRESS, IMPLEMENTED])`. -/
def is_active_status (s : CRStatus) : Bool :=
  s ∈ [CRStatus.approved, CRStatus.in_progress, CRStatus.implemented]

/-- The effect of one fault-free sweep on a single CR row: rows outside the
query filter (`is_active_status` and a set deadline) are untouched. -/
def sweep_cr (now : Int) (cr : ChangeRequest) : ChangeRequest × List NotificationKind :=
  if is_active_status cr.status && cr.implementation_deadline.isSome then
    sweep_body now cr
  else (cr, [])

/-- Reference form of a fault-free run: the committed states, one per input
CR, in order. -/
def sweep_states (now : Int) : List ChangeRequest → List ChangeRequest
  | [] => []
  | cr :: rest => (sweep_body now cr).1 :: sweep_states now rest

/-- Reference form of a fault-free run: the dispatched notifications tagged
with the id of the CR they are about, in order. -/
def sweep_notifs (now : Int) : List ChangeRequest → List (Nat × NotificationKind)
  | [] => []
  | cr :: rest => ((sweep_body now cr).2).map (fun k => (cr.id, k)) ++ sweep_notifs now rest

/-! ## Histories: transition calls and sweeps interleaved -/

/-- A call to one of the public transition methods, with its arguments. -/
inductive TransitionCall where
  | submit (now : Int)
  | approve (now : Int) (approver_id : Nat) (comments : Option String)
  | reject (now : Int) (approver_id : Nat) (reason : String)
  | start_implementation (now : Int) (implementer_id : Nat)
  | complete_implementation
  | close (now : Int) (user_id : Nat) (comments : Option String) (notes : Option String)
  | rollback (now : Int) (user_id : Nat) (reason : String)
deriving DecidableEq, Repr

/-- Dispatch a `TransitionCall` to the corresponding method. -/
def apply_call : TransitionCall → ChangeRequest → ChangeRequest
  | TransitionCall.submit now, cr => submit now cr
  | TransitionCall.approve now a c, cr => approve now a c cr
  | TransitionCall.reject now a r, cr => reject now a r cr
  | TransitionCall.start_implementation now i, cr => start_implementation now i cr
  | TransitionCall.complete_implementation, cr => complete_implementation cr
  | TransitionCall.close now u c n, cr => close now u c n cr
  | TransitionCall.rollback now u r, cr => rollback now u r cr

/-- Something that can happen to one CR: a transition-method call, or one
fault-free sweep execution observed at time `now`. -/
inductive Event where
  | call (c : TransitionCall)
  | sweep (now : Int)
deriving Repr

/-- Apply one event to a CR, collecting the SLA notifications it fires. -/
def apply_event : Event → ChangeRequest → ChangeRequest × List NotificationKind
  | Event.call c, cr => (apply_call c cr, [])
  | Event.sweep now, cr => sweep_cr now cr

/-- Run a history of events over one CR, concatenating fired notifications. -/
def run_events : List Event → ChangeRequest → ChangeRequest × List NotificationKind
  | [], cr => (cr, [])
  | e :: es, cr =>
    let s := apply_event e cr
    let r := run_events es s.1
    (r.1, s.2 ++ r.2)

/-! ## CR number generation (`ChangeRequest.generate_cr_number`)

Strings are modelled as `List Char`; the SQL LIKE filter on the daily tag
is a test that the stored number starts with the tag. -/

/-- The decimal digit character for `d < 10` (code point `48 + d`). -/
def dchar (d : Nat) : Char := Char.ofNat (48 + d)

/-- Python percent-style `04d` formatting: the decimal digits of `n`,
zero-padded on the left to at least four characters. -/
def pad4 (n : Nat) : List Char :=
  if n < 10000 then
    [dchar (n / 1000), dchar (n / 100 % 10), dchar (n / 10 % 10), dchar (n % 10)]
  else Nat.toDigits 10 n

/-- The daily tag, CR dash date, for an eight-character date string. -/
def day_tag (date : List Char) : List Char :=
  'C' :: 'R' :: '-' :: date

/-- The count query of `generate_cr_number`: how many stored numbers start
with the daily tag. -/
def like_count (existing : List (List Char)) (tag : List Char) : Nat :=
  existing.countP (fun s => tag.isPrefixOf s)

/-- `ChangeRequest.generate_cr_number` on a given day against the stored
numbers: the daily tag, a dash, and the zero-padded value of count + 1. -/
def generate_cr_number (date : List Char) (existing : List (List Char)) : List Char :=
  day_tag date ++ '-' :: pad4 (like_count existing (day_tag date) + 1)

/-- A single-threaded caller creating `n` CRs on day `date`, persisting each
one before generating the next number; returns the numbers in order. -/
def create_crs (date : List Char) (existing : List (List Char)) : Nat → List (List Char)
  | 0 => []
  | Nat.succ n =>
    let num := generate_cr_number date existing
    num :: create_crs date (existing ++ [num]) n

/-! ## Spec-side reference definitions (for refinement comparisons) -/

/-- Modelled from the spec: `needsWarning(cr, now)` is true iff the deadline
is set AND not already breached AND not already warned AND
`0 < timeUntilDeadline <= 24h`. -/
def needs_warning_spec (now : Int) (cr : ChangeRequest) : Bool :=
  match cr.implementation_deadline with
  | some d =>
    decide (cr.is_sla_breached = false) && decide (cr.sla_warning_sent = false) &&
      decide (0 < d - now) && decide (d - now ≤ 86400)
  | none => false

/-- Modelled from the spec: position of each status along the forward
transition graph of section 4.1 (Draft to PendingApproval to
Approved/Rejected to InProgress to Implemented to Closed, with RolledBack
terminal; Draft and Submitted are functionally merged). -/
def status_rank : CRStatus → Nat
  | CRStatus.draft => 0
  | CRStatus.submitted => 1
  | CRStatus.pending_approval => 1
  | CRStatus.approved => 2
  | CRStatus.rejected => 2
  | CRStatus.in_progress => 3
  | CRStatus.implemented => 4
  | CRStatus.closed => 5
  | CRStatus.rolled_back => 6

/-- Modelled from the spec: the status guard of each transition in the
section 4.1 table (actor-capability conjuncts are the caller concern and
omitted here). -/
def guard_ok : TransitionCall → CRStatus → Bool
  | TransitionCall.submit _, s => decide (s = CRStatus.draft)
  | TransitionCall.approve _ _ _, s => decide (s = CRStatus.pending_approval)
  | TransitionCall.reject _ _ _, s => decide (s = CRStatus.pending_approval)
  | TransitionCall.start_implementation _ _, s => decide (s = CRStatus.approved)
  | TransitionCall.complete_implementation, s =>
    decide (s = CRStatus.approved) || decide (s = CRStatus.in_progress)
  | TransitionCall.close _ _ _ _, s => decide (s = CRStatus.implemented)
  | TransitionCall.rollback _ _ _, s =>
    decide (s = CRStatus.implemented) || decide (s = CRStatus.closed)

/-- Modelled from the spec: an actor belongs to a project when they hold an
active membership in it. -/
def belongs_to_project (u : User) (p : Project) : Bool :=
  u.project_memberships.any (fun m => decide (m.project_id = p.id) && m.is_active)

/-- Modelled from the spec: the access matrix of section 4.1, by lower-cased
role name — admin iff creator of the parent project; requester iff the CR
requester and a project member; implementer iff a project member and the
status is post-approval; approver iff a project member; otherwise deny. -/
def access_matrix (u : User) (cr : ChangeRequest) : Bool :=
  match u.role with
  | none => false
  | some r =>
    if str_lower r.name = "admin" then
      decide (cr.project.created_by_id = u.id)
    else if str_lower r.name = "requester" then
      belongs_to_project u cr.project && decide (cr.requester_id = u.id)
    else if str_lower r.name = "implementer" then
      belongs_to_project u cr.project && decide (cr.status ∈ implementer_visible_statuses)
    else if str_lower r.name = "approver" then
      belongs_to_project u cr.project
    else
      false

/-! ## Concrete fixtures used by witnesses and counterexamples -/

/-- A project owned by user 1. -/
def ex_project : Project := { id := 1, created_by_id := 1 }

/-- An approved CR whose implementation deadline (time 0) can be in the past
or the future depending on the chosen `now`. -/
def ex_cr_overdue : ChangeRequest :=
  { id := 1, project := ex_project, requester_id := 1,
    status := CRStatus.approved, implementation_deadline := some 0 }

/-- A second such CR with a distinct id. -/
def ex_cr_overdue2 : ChangeRequest :=
  { ex_cr_overdue with id := 2 }

/-- A draft CR that already carries an SLA deadline stamp. -/
def ex_cr_draft : ChangeRequest :=
  { id := 3, project := ex_project, requester_id := 1,
    status := CRStatus.draft, sla_deadline := some 5 }

/-- A closed CR. -/
def ex_cr_closed : ChangeRequest :=
  { id := 4, project := ex_project, requester_id := 1, status := CRStatus.closed }

/-- A fault model where dispatching email about CR id 1 raises. -/
def ex_raises : Nat → Bool := fun i => decide (i = 1)

/-- A concrete creation date, `20251012`. -/
def ex_date : List Char := ['2', '0', '2', '5', '1', '0', '1', '2']

/-! ## Helper lemmas on the sweep body -/

/-- Exhaustive case analysis of one fault-free loop iteration: it either
leaves the CR untouched, silently marks a breach (when the one-shot flag is
already set), fires the breach email, or fires the warning email. -/
theorem sweep_body_cases (now : Int) (cr : ChangeRequest) :
    sweep_body now cr = (cr, []) ∨
    (sweep_body now cr = ({ cr with is_sla_breached := true }, []) ∧
      cr.sla_warning_sent = true) ∨
    (sweep_body now cr = ({ cr with is_sla_breached := true, sla_warning_sent := true },
        [NotificationKind.breach]) ∧ cr.sla_warning_sent = false) ∨
    (sweep_body now cr = ({ cr with sla_warning_sent := true }, [NotificationKind.warning]) ∧
      cr.sla_warning_sent = false ∧ cr.is_sla_breached = false ∧
      ∃ d, cr.implementation_deadline = some d ∧ 0 < d - now ∧ d - now ≤ 86400) := by
  by_cases hC : cr.status = CRStatus.closed
  · left
    simp [sweep_body, hC]
  · cases hd : cr.implementation_deadline with
    | none =>
      left
      simp [sweep_body, hC, check_sla_breach, is_deadline_warning_needed, hd]
    | some d =>
      by_cases hb : cr.is_sla_breached
      · left
        simp [sweep_body, hC, check_sla_breach, is_deadline_warning_needed, hd, hb]
      · by_cases hn : now > d
        · by_cases hw : cr.sla_warning_sent
          · right; left
            refine ⟨?_, hw⟩
            simp [sweep_body, hC, check_sla_breach, hd, hb, hn, hw]
          · right; right; left
            refine ⟨?_, by simpa using hw⟩
            simp [sweep_body, hC, check_sla_breach, hd, hb, hn, hw]
        · by_cases hw : cr.sla_warning_sent
          · left
            simp [sweep_body, hC, check_sla_breach, is_deadline_warning_needed, hd, hb, hn, hw]
          · by_cases ht1 : d - now = 0
            · left
              simp [sweep_body, hC, check_sla_breach, is_deadline_warning_needed,
                time_until_deadline, hd, hb, hn, hw, ht1]
            · by_cases ht2 : d - now ≤ 86400
              · right; right; right
                have hpos : 0 < d - now := by omega
                refine ⟨?_, by simpa using hw, by simpa using hb, d, rfl, hpos, ht2⟩
                simp [sweep_body, hC, check_sla_breach, is_deadline_warning_needed,
                  time_until_deadline, hd, hb, hn, hw, ht1, ht2, hpos]
              · left
                simp [sweep_body, hC, check_sla_breach, is_deadline_warning_needed,
                  time_until_deadline, hd, hb, hn, hw, ht1, ht2]

/-- The sweep body never changes the id, status or deadline of a CR. -/
theorem sweep_body_preserves (now : Int) (cr : ChangeRequest) :
    (sweep_body now cr).1.id = cr.id ∧
    (sweep_body now cr).1.status = cr.status ∧
    (sweep_body now cr).1.implementation_deadline = cr.implementation_deadline := by
  rcases sweep_body_cases now cr with h | ⟨h, _⟩ | ⟨h, _⟩ | ⟨h, _⟩ <;> simp [h]

/-- One loop iteration dispatches at most one notification. -/
theorem sweep_body_len_le_one (now : Int) (cr : ChangeRequest) :
    ((sweep_body now cr).2).length ≤ 1 := by
  rcases sweep_body_cases now cr with h | ⟨h, _⟩ | ⟨h, _⟩ | ⟨h, _⟩ <;> simp [h]

/-- With the one-shot flag already set, an iteration dispatches nothing and
keeps the flag set. -/
theorem sweep_body_warned (now : Int) (cr : ChangeRequest)
    (hw : cr.sla_warning_sent = true) :
    (sweep_body now cr).2 = [] ∧ (sweep_body now cr).1.sla_warning_sent = true := by
  rcases sweep_body_cases now cr with h | ⟨h, _⟩ | ⟨h, hw2⟩ | ⟨h, hw2, _⟩ <;>
    simp [h, hw] <;> simp [hw] at hw2

/-- Whenever an iteration dispatches anything, it leaves the one-shot flag
set, and the flag was clear beforehand. -/
theorem sweep_body_fired (now : Int) (cr : ChangeRequest)
    (hf : (sweep_body now cr).2 ≠ []) :
    cr.sla_warning_sent = false ∧ (sweep_body now cr).1.sla_warning_sent = true := by
  rcases sweep_body_cases now cr with h | ⟨h, hw⟩ | ⟨h, hw⟩ | ⟨h, hw, _⟩
  · rw [h] at hf
    simp at hf
  · rw [h] at hf
    simp at hf
  · exact ⟨hw, by rw [h]⟩
  · exact ⟨hw, by rw [h]⟩

/-- The sweep body never clears either one-shot flag. -/
theorem sweep_body_flag_mono (now : Int) (cr : ChangeRequest) :
    (cr.is_sla_breached = true → (sweep_body now cr).1.is_sla_breached = true) ∧
    (cr.sla_warning_sent = true → (sweep_body now cr).1.sla_warning_sent = true) := by
  rcases sweep_body_cases now cr with h | ⟨h, _⟩ | ⟨h, _⟩ | ⟨h, _⟩ <;> simp [h]

/-- A second iteration at the same time instant, over the state committed by
a first iteration, dispatches nothing new. -/
theorem sweep_body_second (now : Int) (cr : ChangeRequest) :
    (sweep_body now ((sweep_body now cr).1)).2 = [] := by
  rcases sweep_body_cases now cr with h | ⟨h, hw⟩ | ⟨h, hw⟩ | ⟨h, hw, _⟩
  · rw [h]
    rw [h]
  · have := sweep_body_warned now ((sweep_body now cr).1) (by rw [h]; simpa using hw)
    exact this.1
  · have := sweep_body_warned now ((sweep_body now cr).1) (by rw [h])
    exact this.1
  · have := sweep_body_warned now ((sweep_body now cr).1) (by rw [h])
    exact this.1

/-- The faultable loop body either raises (exactly when a dispatch is
attempted for a CR whose id the gateway faults on) or returns the fault-free
result. -/
theorem sweep_body_exc_spec (raises : Nat → Bool) (now : Int) (cr : ChangeRequest) :
    (raises cr.id = true ∧ (sweep_body now cr).2 ≠ [] ∧
      sweep_body_exc raises now cr = Except.error ()) ∨
    sweep_body_exc raises now cr = Except.ok (sweep_body now cr) := by
  by_cases hC : cr.status = CRStatus.closed
  · right
    simp [sweep_body_exc, sweep_body, hC]
  · cases hd : cr.implementation_deadline with
    | none =>
      right
      simp [sweep_body_exc, sweep_body, hC, check_sla_breach, is_deadline_warning_needed, hd]
    | some d =>
      by_cases hb : cr.is_sla_breached
      · right
        simp [sweep_body_exc, sweep_body, hC, check_sla_breach,
          is_deadline_warning_needed, hd, hb]
      · by_cases hn : now > d
        · by_cases hw : cr.sla_warning_sent
          · right
            simp [sweep_body_exc, sweep_body, hC, check_sla_breach, hd, hb, hn, hw]
          · by_cases hr : raises cr.id
            · left
              refine ⟨hr, ?_, ?_⟩
              · simp [sweep_body, hC, check_sla_breach, hd, hb, hn, hw]
              · simp [sweep_body_exc, hC, check_sla_breach, hd, hb, hn, hw, hr]
            · right
              simp [sweep_body_exc, sweep_body, hC, check_sla_breach, hd, hb, hn, hw, hr]
        · by_cases hw : cr.sla_warning_sent
          · right
            simp [sweep_body_exc, sweep_body, hC, check_sla_breach,
              is_deadline_warning_needed, hd, hb, hn, hw]
          · by_cases ht1 : d - now = 0
            · right
              simp [sweep_body_exc, sweep_body, hC, check_sla_breach,
                is_deadline_warning_needed, time_until_deadline, hd, hb, hn, hw, ht1]
            · by_cases ht2 : d - now ≤ 86400
              · have hpos : 0 < d - now := by omega
                by_cases hr : raises cr.id
                · left
                  refine ⟨hr, ?_, ?_⟩
                  · simp [sweep_body, hC, check_sla_breach, is_deadline_warning_needed,
                      time_until_deadline, hd, hb, hn, hw, ht1, ht2, hpos]
                  · simp [sweep_body_exc, hC, check_sla_breach, is_deadline_warning_needed,
                      time_until_deadline, hd, hb, hn, hw, ht1, ht2, hpos, hr]
                · right
                  simp [sweep_body_exc, sweep_body, hC, check_sla_breach,
                    is_deadline_warning_needed, time_until_deadline,
                    hd, hb, hn, hw, ht1, ht2, hpos, hr]
              · right
                simp [sweep_body_exc, sweep_body, hC, check_sla_breach,
                  is_deadline_warning_needed, time_until_deadline,
                  hd, hb, hn, hw, ht1, ht2]

/-- Without collaborator faults the loop body never raises. -/
theorem sweep_body_exc_no_fault (now : Int) (cr : ChangeRequest) :
    sweep_body_exc no_fault now cr = Except.ok (sweep_body now cr) := by
  rcases sweep_body_exc_spec no_fault now cr with ⟨hr, _, _⟩ | h
  · simp [no_fault] at hr
  · exact h

/-- Without collaborator faults the loop runs to completion and returns the
per-item states and notifications. -/
theorem sweep_loop_exc_no_fault (now : Int) (crs : List ChangeRequest) :
    sweep_loop_exc no_fault now crs =
      Except.ok (sweep_states now crs, sweep_notifs now crs) := by
  induction crs with
  | nil => rfl
  | cons cr rest ih =>
    simp [sweep_loop_exc, sweep_body_exc_no_fault, ih, sweep_states, sweep_notifs]

/-- `check_sla_deadlines` without faults: every queried CR is processed. -/
theorem check_sla_deadlines_no_fault (now : Int) (crs : List ChangeRequest) :
    check_sla_deadlines no_fault now crs = (sweep_states now crs, sweep_notifs now crs) := by
  simp [check_sla_deadlines, sweep_loop_exc_no_fault]

/-- A second fault-free run at the same instant dispatches nothing. -/
theorem sweep_notifs_after_states (now : Int) (crs : List ChangeRequest) :
    sweep_notifs now (sweep_states now crs) = [] := by
  induction crs with
  | nil => rfl
  | cons cr rest ih =>
    simp [sweep_states, sweep_notifs, sweep_body_second, ih]

/-- Every dispatched notification is tagged with the id of some queried CR. -/
theorem sweep_notifs_ids (now : Int) (crs : List ChangeRequest)
    (p : Nat × NotificationKind) (hp : p ∈ sweep_notifs now crs) :
    p.1 ∈ crs.map ChangeRequest.id := by
  induction crs with
  | nil => simp [sweep_notifs] at hp
  | cons cr rest ih =>
    simp only [sweep_notifs, List.mem_append, List.mem_map] at hp
    rcases hp with ⟨k, _, hk⟩ | hp
    · simp [← hk]
    · simp [ih hp]

/-- With pairwise-distinct CR ids, a fault-free run dispatches at most one
notification per CR id and kind. -/
theorem sweep_notifs_count (now : Int) (crs : List ChangeRequest)
    (hids : (crs.map ChangeRequest.id).Nodup) (i : Nat) (k : NotificationKind) :
    (sweep_notifs now crs).count (i, k) ≤ 1 := by
  induction crs with
  | nil => simp [sweep_notifs]
  | cons cr rest ih =>
    rw [List.map_cons, List.nodup_cons] at hids
    rw [sweep_notifs, List.count_append]
    by_cases hi : i = cr.id
    · have h1 : (((sweep_body now cr).2).map (fun k => (cr.id, k))).count (i, k) ≤ 1 := by
        calc (((sweep_body now cr).2).map (fun k => (cr.id, k))).count (i, k)
            ≤ (((sweep_body now cr).2).map (fun k => (cr.id, k))).length :=
              List.count_le_length _ _
          _ ≤ 1 := by
              rw [List.length_map]
              exact sweep_body_len_le_one now cr
      have h2 : (sweep_notifs now rest).count (i, k) = 0 := by
        rw [List.count_eq_zero]
        intro hmem
        exact hids.1 (hi ▸ sweep_notifs_ids now rest (i, k) hmem)
      omega
    · have h1 : ((((sweep_body now cr).2).map (fun k => (cr.id, k))).count (i, k)) = 0 := by
        rw [List.count_eq_zero]
        intro hmem
        rcases List.mem_map.mp hmem with ⟨k2, _, hk2⟩
        have hfst : cr.id = i := congrArg Prod.fst hk2
        exact hi hfst.symm
      have h2 := ih hids.2
      omega

/-! ## Helper lemmas on transition calls and event histories -/

/-- No transition method touches either SLA one-shot flag. -/
theorem apply_call_flags (c : TransitionCall) (cr : ChangeRequest) :
    (apply_call c cr).is_sla_breached = cr.is_sla_breached ∧
    (apply_call c cr).sla_warning_sent = cr.sla_warning_sent := by
  cases c <;>
    simp only [apply_call, submit, approve, reject, start_implementation,
      complete_implementation, close, rollback] <;>
    first
    | (split <;> simp)
    | simp

/-- The per-CR effect of a full sweep satisfies the same four-way case split
as the loop body (rows outside the query filter fall in the untouched case). -/
theorem sweep_cr_cases (now : Int) (cr : ChangeRequest) :
    sweep_cr now cr = (cr, []) ∨
    (sweep_cr now cr = ({ cr with is_sla_breached := true }, []) ∧
      cr.sla_warning_sent = true) ∨
    (sweep_cr now cr = ({ cr with is_sla_breached := true, sla_warning_sent := true },
        [NotificationKind.breach]) ∧ cr.sla_warning_sent = false) ∨
    (sweep_cr now cr = ({ cr with sla_warning_sent := true }, [NotificationKind.warning]) ∧
      cr.sla_warning_sent = false ∧ cr.is_sla_breached = false ∧
      ∃ d, cr.implementation_deadline = some d ∧ 0 < d - now ∧ d - now ≤ 86400) := by
  by_cases hq : is_active_status cr.status && cr.implementation_deadline.isSome
  · have : sweep_cr now cr = sweep_body now cr := by simp [sweep_cr, hq]
    rw [this]
    exact sweep_body_cases now cr
  · left
    simp [sweep_cr, hq]

/-- One event fires at most one notification. -/
theorem apply_event_len_le_one (e : Event) (cr : ChangeRequest) :
    ((apply_event e cr).2).length ≤ 1 := by
  cases e with
  | call c => simp [apply_event]
  | sweep now =>
    rcases sweep_cr_cases now cr with h | ⟨h, _⟩ | ⟨h, _⟩ | ⟨h, _⟩ <;>
      simp [apply_event, h]

/-- No event clears either one-shot flag. -/
theorem apply_event_flag_mono (e : Event) (cr : ChangeRequest) :
    (cr.is_sla_breached = true → (apply_event e cr).1.is_sla_breached = true) ∧
    (cr.sla_warning_sent = true → (apply_event e cr).1.sla_warning_sent = true) := by
  cases e with
  | call c =>
    have h := apply_call_flags c cr
    simp [apply_event, h.1, h.2]
  | sweep now =>
    rcases sweep_cr_cases now cr with h | ⟨h, _⟩ | ⟨h, _⟩ | ⟨h, _⟩ <;>
      simp [apply_event, h]

/-- With the one-shot flag set, an event fires nothing and keeps the flag. -/
theorem apply_event_warned (e : Event) (cr : ChangeRequest)
    (hw : cr.sla_warning_sent = true) :
    (apply_event e cr).2 = [] ∧ (apply_event e cr).1.sla_warning_sent = true := by
  cases e with
  | call c =>
    have h := apply_call_flags c cr
    simp [apply_event, h.2, hw]
  | sweep now =>
    rcases sweep_cr_cases now cr with h | ⟨h, _⟩ | ⟨h, hw2⟩ | ⟨h, hw2, _⟩
    · simp [apply_event, h, hw]
    · simp [apply_event, h, hw]
    · rw [hw] at hw2
      cases hw2
    · rw [hw] at hw2
      cases hw2

/-- An event that fires had the one-shot flag clear, and sets it. -/
theorem apply_event_fired (e : Event) (cr : ChangeRequest)
    (hf : (apply_event e cr).2 ≠ []) :
    cr.sla_warning_sent = false ∧ (apply_event e cr).1.sla_warning_sent = true := by
  cases e with
  | call c =>
    simp [apply_event] at hf
  | sweep now =>
    rcases sweep_cr_cases now cr with h | ⟨h, _⟩ | ⟨h, hw⟩ | ⟨h, hw, _⟩
    · rw [apply_event] at hf
      rw [h] at hf
      simp at hf
    · rw [apply_event] at hf
      rw [h] at hf
      simp at hf
    · refine ⟨hw, ?_⟩
      simp [apply_event, h]
    · refine ⟨hw, ?_⟩
      simp [apply_event, h]

/-- Once the one-shot flag is set, no later event in a history fires. -/
theorem run_events_warned (es : List Event) (cr : ChangeRequest)
    (hw : cr.sla_warning_sent = true) :
    (run_events es cr).2 = [] ∧ (run_events es cr).1.sla_warning_sent = true := by
  induction es generalizing cr with
  | nil => exact ⟨rfl, hw⟩
  | cons e es ih =>
    have h1 := apply_event_warned e cr hw
    have h2 := ih (apply_event e cr).1 h1.2
    simp [run_events, h1.1, h2.1, h2.2]

/-- Both one-shot flags are monotone along any event history. -/
theorem run_events_flag_mono (es : List Event) (cr : ChangeRequest) :
    (cr.is_sla_breached = true → (run_events es cr).1.is_sla_breached = true) ∧
    (cr.sla_warning_sent = true → (run_events es cr).1.sla_warning_sent = true) := by
  induction es generalizing cr with
  | nil => exact ⟨fun h => h, fun h => h⟩
  | cons e es ih =>
    have h1 := apply_event_flag_mono e cr
    have h2 := ih (apply_event e cr).1
    exact ⟨fun h => h2.1 (h1.1 h), fun h => h2.2 (h1.2 h)⟩

/-- Any event history fires at most one notification for a given CR. -/
theorem run_events_len_le_one (es : List Event) (cr : ChangeRequest) :
    ((run_events es cr).2).length ≤ 1 := by
  induction es generalizing cr with
  | nil => simp [run_events]
  | cons e es ih =>
    by_cases hf : (apply_event e cr).2 = []
    · have := ih (apply_event e cr).1
      simp [run_events, hf, this]
    · have hw := (apply_event_fired e cr hf).2
      have hrest := (run_events_warned es (apply_event e cr).1 hw).1
      have hlen := apply_event_len_le_one e cr
      simp [run_events, hrest, hlen]

/-! ## Helper lemmas on CR number generation -/

/-- A list is a prefix of itself followed by anything. -/
theorem isPrefixOf_append_self (p t : List Char) : p.isPrefixOf (p ++ t) = true := by
  induction p with
  | nil => simp [List.isPrefixOf]
  | cons a as ih => simp [List.isPrefixOf, ih]

/-- `dchar` is injective on single digits (checked exhaustively). -/
theorem dchar_inj_fin : ∀ x : Fin 10, ∀ y : Fin 10, dchar x.val = dchar y.val → x = y := by
  decide

/-- `dchar` is injective on single digits. -/
theorem dchar_inj (a b : Nat) (ha : a < 10) (hb : b < 10) (h : dchar a = dchar b) : a = b :=
  congrArg Fin.val (dchar_inj_fin ⟨a, ha⟩ ⟨b, hb⟩ h)

/-- Zero-padded four-digit rendering is injective below 10000. -/
theorem pad4_inj (a b : Nat) (ha : a ≤ 9999) (hb : b ≤ 9999) (h : pad4 a = pad4 b) : a = b := by
  rw [pad4, pad4, if_pos (by omega), if_pos (by omega)] at h
  simp only [List.cons.injEq, and_true] at h
  obtain ⟨h3, h2, h1, h0⟩ := h
  have e3 := dchar_inj _ _ (by omega) (by omega) h3
  have e2 := dchar_inj _ _ (by omega) (by omega) h2
  have e1 := dchar_inj _ _ (by omega) (by omega) h1
  have e0 := dchar_inj _ _ (by omega) (by omega) h0
  omega

/-- Persisting a freshly generated number raises the daily count by one. -/
theorem like_count_append_one (existing : List (List Char)) (tag s : List Char) :
    like_count (existing ++ [tag ++ s]) tag = like_count existing tag + 1 := by
  rw [like_count, like_count, List.countP_append]
  simp [isPrefixOf_append_self]

/-- Characterization of a single-threaded creation run: starting from `c`
CRs already carrying the daily tag, the numbers generated are the consecutive sequence
values `c + 1, c + 2, ...` rendered with the daily tag. -/
theorem create_crs_spec (date : List Char) :
    ∀ (n : Nat) (existing : List (List Char)) (c : Nat),
      like_count existing (day_tag date) = c →
      create_crs date existing n =
        (List.range n).map (fun i => day_tag date ++ '-' :: pad4 (c + i + 1)) := by
  intro n
  induction n with
  | zero =>
    intro existing c hc
    simp [create_crs]
  | succ n ih =>
    intro existing c hc
    have hnum : generate_cr_number date existing = day_tag date ++ '-' :: pad4 (c + 1) := by
      rw [generate_cr_number, hc]
    have hcount :
        like_count (existing ++ [generate_cr_number date existing]) (day_tag date) = c + 1 := by
      rw [hnum, like_count_append_one, hc]
    simp only [create_crs]
    rw [ih (existing ++ [generate_cr_number date existing]) (c + 1) hcount]
    rw [List.range_succ_eq_map, List.map_cons, List.map_map, hnum]
    refine congrArg₂ List.cons rfl ?_
    apply List.map_congr_left
    intro i _
    have hi : c + 1 + i + 1 = c + (i + 1) + 1 := by omega
    simp [Function.comp, hi]

/-! ## Claim C1 -/

/-- C1: Sweep idempotence — for a fixed current time, a fault-free run of
`check_sla_deadlines` over active CRs with pairwise-distinct ids fires at
most one notification per CR id and kind, and running the sweep a second
time at the same time instant, over the states committed by the first run,
fires zero additional warning or breach notifications for any CR: the
one-shot flags guard re-firing. -/
theorem c1_sweep_idempotent (now : Int) (active_crs : List ChangeRequest)
    (hids : (active_crs.map ChangeRequest.id).Nodup) :
    (∀ i k, ((check_sla_deadlines no_fault now active_crs).2).count (i, k) ≤ 1) ∧
    (check_sla_deadlines no_fault now
        ((check_sla_deadlines no_fault now active_crs).1)).2 = [] := by
  constructor
  · intro i k
    rw [check_sla_deadlines_no_fault]
    exact sweep_notifs_count now active_crs hids i k
  · rw [check_sla_deadlines_no_fault, check_sla_deadlines_no_fault]
    exact sweep_notifs_after_states now active_crs

/-- Witness for C1: two overdue CRs with distinct ids, swept twice at the
same instant. -/
theorem c1_sweep_idempotent_witness :
    ([ex_cr_overdue, ex_cr_overdue2].map ChangeRequest.id).Nodup ∧
    ((check_sla_deadlines no_fault 3600 [ex_cr_overdue, ex_cr_overdue2]).2).count
        (1, NotificationKind.breach) ≤ 1 ∧
    (check_sla_deadlines no_fault 3600
        ((check_sla_deadlines no_fault 3600 [ex_cr_overdue, ex_cr_overdue2]).1)).2 = [] :=
  ⟨by decide,
    (c1_sweep_idempotent 3600 [ex_cr_overdue, ex_cr_overdue2] (by decide)).1
      1 NotificationKind.breach,
    (c1_sweep_idempotent 3600 [ex_cr_overdue, ex_cr_overdue2] (by decide)).2⟩

/-! ## Claim C2 -/

/-- C2 counterexample: the claim requires `is_deadline_warning_needed` to be
false whenever the deadline has already passed, but at one hour past the
deadline (deadline 0, now 3600) the code returns true, while the spec
predicate `needsWarning` (which requires `0 < timeUntilDeadline`) is false. -/
theorem c2_warning_window_cex :
    is_deadline_warning_needed 3600 ex_cr_overdue = true ∧
    needs_warning_spec 3600 ex_cr_overdue = false := by
  decide

/-- C2 amended: `is_deadline_warning_needed` returns true iff the deadline
is set, the CR is not already marked breached, the warning flag is not
already set, and the time until the deadline is nonzero (not necessarily
positive) and at most 24 hours; in particular it can return true after the
deadline has passed, as long as the breach flag is not yet set. -/
theorem c2_warning_window_amended (now : Int) (cr : ChangeRequest) :
    (∀ d, cr.implementation_deadline = some d →
      (is_deadline_warning_needed now cr = true ↔
        cr.is_sla_breached = false ∧ cr.sla_warning_sent = false ∧
        d - now ≠ 0 ∧ d - now ≤ 86400)) ∧
    (cr.implementation_deadline = none → is_deadline_warning_needed now cr = false) := by
  constructor
  · intro d hd
    by_cases hw : cr.sla_warning_sent <;> by_cases hb : cr.is_sla_breached <;>
      simp [is_deadline_warning_needed, time_until_deadline, hd, hw, hb]
  · intro hd
    simp [is_deadline_warning_needed, hd]

/-- Witness for C2 amended at the overdue fixture. -/
theorem c2_warning_window_amended_witness :
    ex_cr_overdue.implementation_deadline = some 0 ∧
    (is_deadline_warning_needed 3600 ex_cr_overdue = true ↔
      ex_cr_overdue.is_sla_breached = false ∧ ex_cr_overdue.sla_warning_sent = false ∧
      (0 : Int) - 3600 ≠ 0 ∧ (0 : Int) - 3600 ≤ 86400) :=
  ⟨rfl, (c2_warning_window_amended 3600 ex_cr_overdue).1 0 rfl⟩

/-! ## Claim C3 -/

/-- C3 counterexample: the `try`/`except` of `check_sla_deadlines` wraps the
whole loop, not each item.  With two overdue CRs and a gateway that raises
on the first CR id, the sweep fires nothing and leaves both CRs untouched —
the second CR is not processed — although the second CR alone would have its
breach flagged and notified. -/
theorem c3_failure_isolation_cex :
    check_sla_deadlines ex_raises 3600 [ex_cr_overdue, ex_cr_overdue2] =
      ([ex_cr_overdue, ex_cr_overdue2], []) ∧
    check_sla_deadlines ex_raises 3600 [ex_cr_overdue2] =
      ([{ ex_cr_overdue2 with is_sla_breached := true, sla_warning_sent := true }],
        [(2, NotificationKind.breach)]) := by
  decide

/-- C3 amended: a dispatch error while processing one CR is caught at the
sweep level — `check_sla_deadlines` itself returns normally and the failing
uncommitted mutation of the failing CR is rolled back — but the loop aborts: every CR
after the failing one is left unprocessed in that run.  Only a fault-free
run processes every CR in the list. -/
theorem c3_failure_isolation_amended :
    (∀ raises now cr rest, sweep_body_exc raises now cr = Except.error () →
      check_sla_deadlines raises now (cr :: rest) = (cr :: rest, [])) ∧
    (∀ now crs, check_sla_deadlines no_fault now crs =
      (sweep_states now crs, sweep_notifs now crs)) := by
  constructor
  · intro raises now cr rest herr
    simp [check_sla_deadlines, sweep_loop_exc, herr]
  · exact check_sla_deadlines_no_fault

/-- Witness for C3 amended: the faulting head CR aborts the concrete run. -/
theorem c3_failure_isolation_amended_witness :
    sweep_body_exc ex_raises 3600 ex_cr_overdue = Except.error () ∧
    check_sla_deadlines ex_raises 3600 [ex_cr_overdue, ex_cr_overdue2] =
      ([ex_cr_overdue, ex_cr_overdue2], []) :=
  ⟨by rfl,
    c3_failure_isolation_amended.1 ex_raises 3600 ex_cr_overdue [ex_cr_overdue2] (by rfl)⟩

/-! ## Claim C4 -/

/-- C4 counterexample: the transition methods other than `submit` do not
check the current status, so calling `approve` on a Closed CR moves it back
to Approved — a reverse transition along the section 4.1 graph made by a
public transition method that is not `rollback`. -/
theorem c4_forward_only_cex :
    (apply_call (TransitionCall.approve 0 7 none) ex_cr_closed).status = CRStatus.approved ∧
    status_rank (apply_call (TransitionCall.approve 0 7 none) ex_cr_closed).status <
      status_rank ex_cr_closed.status := by
  decide

/-- C4 amended: forward-only motion holds for guarded call sequences: when a
transition method is invoked in a status where its section 4.1 guard holds,
the status strictly advances along the graph, and no guard admits any call
from RolledBack, which is therefore terminal.  (The methods themselves do
not enforce these guards; callers do.) -/
theorem c4_forward_only_amended :
    (∀ c cr, guard_ok c cr.status = true →
      status_rank cr.status < status_rank (apply_call c cr).status) ∧
    (∀ c, guard_ok c CRStatus.rolled_back = false) := by
  constructor
  · intro c cr hg
    cases c with
    | submit now =>
      simp only [guard_ok, decide_eq_true_eq] at hg
      simp [apply_call, submit, hg, status_rank]
    | approve now a cm =>
      simp only [guard_ok, decide_eq_true_eq] at hg
      simp [apply_call, approve, hg, status_rank]
    | reject now a r =>
      simp only [guard_ok, decide_eq_true_eq] at hg
      simp [apply_call, reject, hg, status_rank]
    | start_implementation now i =>
      simp only [guard_ok, decide_eq_true_eq] at hg
      simp [apply_call, start_implementation, hg, status_rank]
    | complete_implementation =>
      simp only [guard_ok, Bool.or_eq_true, decide_eq_true_eq] at hg
      rcases hg with h | h <;>
        simp [apply_call, complete_implementation, h, status_rank]
    | close now u cm n =>
      simp only [guard_ok, decide_eq_true_eq] at hg
      simp [apply_call, close, hg, status_rank]
    | rollback now u r =>
      simp only [guard_ok, Bool.or_eq_true, decide_eq_true_eq] at hg
      rcases hg with h | h <;>
        simp [apply_call, rollback, h, status_rank]
  · intro c
    cases c <;> simp [guard_ok]

/-- Witness for C4 amended: a guarded `submit` from Draft advances the rank. -/
theorem c4_forward_only_amended_witness :
    guard_ok (TransitionCall.submit 0) ex_cr_draft.status = true ∧
    status_rank ex_cr_draft.status <
      status_rank (apply_call (TransitionCall.submit 0) ex_cr_draft).status ∧
    guard_ok (TransitionCall.submit 0) CRStatus.rolled_back = false :=
  ⟨by decide,
    c4_forward_only_amended.1 (TransitionCall.submit 0) ex_cr_draft (by decide),
    c4_forward_only_amended.2 (TransitionCall.submit 0)⟩

/-! ## Claim C5 -/

/-- C5: `is_sla_breached` and `sla_warning_sent` are monotone: once true,
they stay true across any history of transition-method calls and sweep
executions; nothing resets them to false. -/
theorem c5_flags_monotone (es : List Event) (cr : ChangeRequest) :
    (cr.is_sla_breached = true → (run_events es cr).1.is_sla_breached = true) ∧
    (cr.sla_warning_sent = true → (run_events es cr).1.sla_warning_sent = true) :=
  run_events_flag_mono es cr

/-- Witness for C5: a breached flag survives a sweep and a transition. -/
theorem c5_flags_monotone_witness :
    ({ ex_cr_overdue with is_sla_breached := true } : ChangeRequest).is_sla_breached = true ∧
    (run_events [Event.sweep 0, Event.call TransitionCall.complete_implementation]
        { ex_cr_overdue with is_sla_breached := true }).1.is_sla_breached = true :=
  ⟨rfl,
    (c5_flags_monotone [Event.sweep 0, Event.call TransitionCall.complete_implementation]
        { ex_cr_overdue with is_sla_breached := true }).1 rfl⟩

/-! ## Claim C6 -/

/-- C6: `can_edit` returns true iff the status is outside
{Approved, Implemented, Closed, Rejected, RolledBack} and the actor is the
requester or holds the `manage_system` capability; in particular, once the
status is in that set, it is false for every actor, elevated or not. -/
theorem c6_can_edit_characterization (cr : ChangeRequest) (u : User) :
    can_edit cr u =
      (decide (cr.status ∉ non_editable_statuses) &&
        (decide (cr.requester_id = u.id) || has_permission u "manage_system")) := by
  rw [can_edit]
  by_cases hs : cr.status ∈ non_editable_statuses
  · simp [hs]
  · by_cases hr : cr.requester_id = u.id
    · simp [hs, hr]
    · by_cases hp : has_permission u "manage_system" <;> simp [hs, hr, hp]

/-! ## Claim C7 -/

/-- C7 counterexample: the claim says an existing SLA deadline stamp is left
unchanged, but `submit` on a Draft CR that already carries
`sla_deadline = some 5` overwrites it with the end-of-day stamp. -/
theorem c7_submit_cex :
    ex_cr_draft.status = CRStatus.draft ∧
    ex_cr_draft.sla_deadline = some 5 ∧
    (submit 0 ex_cr_draft).sla_deadline = some 86399 ∧
    (submit 0 ex_cr_draft).sla_deadline ≠ ex_cr_draft.sla_deadline := by
  decide

/-- C7 amended: on a Draft CR, `submit` sets the status to PendingApproval,
stamps `submitted_at` with the current time, and unconditionally overwrites
`sla_deadline` with the same-day end-of-day stamp (whether or not a deadline
was already set); on any non-Draft CR it changes nothing. -/
theorem c7_submit_amended (now : Int) (cr : ChangeRequest) :
    (cr.status = CRStatus.draft →
      submit now cr =
        { cr with
            status := CRStatus.pending_approval
            submitted_at := some now
            sla_deadline := some (end_of_day now) }) ∧
    (cr.status ≠ CRStatus.draft → submit now cr = cr) := by
  constructor
  · intro h
    simp [submit, h]
  · intro h
    simp [submit, h]

/-- Witness for C7 amended at the draft fixture. -/
theorem c7_submit_amended_witness :
    ex_cr_draft.status = CRStatus.draft ∧
    submit 0 ex_cr_draft =
      { ex_cr_draft with
          status := CRStatus.pending_approval
          submitted_at := some 0
          sla_deadline := some (end_of_day 0) } :=
  ⟨rfl, (c7_submit_amended 0 ex_cr_draft).1 rfl⟩

/-! ## Claim C8 -/

/-- C8: `can_access_cr` computes exactly the role matrix of the spec: admins
iff they created the parent project, requesters iff the CR is theirs and
they belong to the project, implementers iff they belong to the project and
the status is post-approval, approvers iff they belong to the project, and
every unrecognized or missing role is denied. -/
theorem c8_access_matrix (u : User) (cr : ChangeRequest) :
    can_access_cr u cr = access_matrix u cr := by
  cases hrole : u.role with
  | none =>
    by_cases hpa : has_project_access u cr.project <;>
      simp [can_access_cr, access_matrix, hrole, hpa]
  | some r =>
    by_cases h1 : str_lower r.name = "admin"
    · simp [can_access_cr, access_matrix, hrole, h1]
    · have hnotadmin : r.name ≠ "admin" := by
        intro hh
        exact h1 (by rw [hh]; rfl)
      have hpa : has_project_access u cr.project = belongs_to_project u cr.project := by
        simp [has_project_access, is_admin, has_role, hrole, hnotadmin, belongs_to_project]
      by_cases hb : belongs_to_project u cr.project
      · by_cases h2 : str_lower r.name = "requester"
        · simp [can_access_cr, access_matrix, hrole, h1, h2, hpa, hb]
        · by_cases h3 : str_lower r.name = "implementer"
          · simp [can_access_cr, access_matrix, hrole, h1, h2, h3, hpa, hb]
          · by_cases h4 : str_lower r.name = "approver" <;>
              simp [can_access_cr, access_matrix, hrole, h1, h2, h3, h4, hpa, hb]
      · by_cases h2 : str_lower r.name = "requester"
        · simp [can_access_cr, access_matrix, hrole, h1, h2, hpa, hb]
        · by_cases h3 : str_lower r.name = "implementer"
          · simp [can_access_cr, access_matrix, hrole, h1, h2, h3, hpa, hb]
          · by_cases h4 : str_lower r.name = "approver" <;>
              simp [can_access_cr, access_matrix, hrole, h1, h2, h3, h4, hpa, hb]

/-! ## Claim C9 -/

/-- C9: with a single-threaded caller that persists each CR before the next
number is generated, and no CR yet stored for the day, the first `n` numbers
of a day are the daily tag followed by the zero-padded sequence values 1
through n, pairwise distinct. -/
theorem c9_cr_numbers (date : List Char) (existing : List (List Char)) (n : Nat)
    (hc : like_count existing (day_tag date) = 0) (hn : n ≤ 9999) :
    create_crs date existing n =
      (List.range n).map (fun i => day_tag date ++ '-' :: pad4 (i + 1)) ∧
    (create_crs date existing n).Nodup := by
  have hspec := create_crs_spec date n existing 0 hc
  constructor
  · rw [hspec]
    apply List.map_congr_left
    intro i _
    simp [Nat.zero_add]
  · rw [hspec]
    apply List.Nodup.map_on ?_ (List.nodup_range n)
    intro x hx y hy hxy
    have h1 : '-' :: pad4 (0 + x + 1) = '-' :: pad4 (0 + y + 1) :=
      List.append_cancel_left hxy
    have h2 : pad4 (x + 1) = pad4 (y + 1) := by
      simpa [Nat.zero_add] using h1
    have hx9 : x + 1 ≤ 9999 := by
      have := List.mem_range.mp hx
      omega
    have hy9 : y + 1 ≤ 9999 := by
      have := List.mem_range.mp hy
      omega
    have := pad4_inj _ _ hx9 hy9 h2
    omega

/-- Witness for C9: two CRs created on 20251012 against an empty store. -/
theorem c9_cr_numbers_witness :
    like_count [] (day_tag ex_date) = 0 ∧
    create_crs ex_date [] 2 =
      (List.range 2).map (fun i => day_tag ex_date ++ '-' :: pad4 (i + 1)) ∧
    (create_crs ex_date [] 2).Nodup :=
  ⟨rfl, c9_cr_numbers ex_date [] 2 rfl (by decide)⟩

/-! ## Claim C10 -/

/-- C10: across any history of transition calls and sweep executions (at
arbitrary times), at most one SLA notification in total is ever fired for a
given CR, and never both the warning and the breach notification: both kinds
are guarded by the single shared `sla_warning_sent` flag, so a CR that has
received the warning never later receives a breach notification. -/
theorem c10_single_notification (es : List Event) (cr : ChangeRequest) :
    ((run_events es cr).2).length ≤ 1 ∧
    ¬(NotificationKind.warning ∈ (run_events es cr).2 ∧
      NotificationKind.breach ∈ (run_events es cr).2) := by
  refine ⟨run_events_len_le_one es cr, ?_⟩
  rintro ⟨hw, hb⟩
  have hlen := run_events_len_le_one es cr
  rcases l : (run_events es cr).2 with _ | ⟨a, rest⟩
  · rw [l] at hw
    simp at hw
  · rw [l] at hw hb hlen
    simp only [List.length_cons] at hlen
    have hrest : rest = [] := List.eq_nil_of_length_eq_zero (by omega)
    subst hrest
    simp only [List.mem_singleton] at hw hb
    exact NotificationKind.noConfusion (hw.trans hb.symm)

end CMS

